import Mathlib

/-!
Shallow embedding, in Lean 4, of the data-pipeline scripts of this repository
(`generate_frequency_inserts.py`, `restore_global_frequency_stats.py`,
`generate_company_frequency_stats.py`, `fetch_codetop_data.py`,
`generate_comprehensive_problems_sql.py`), together with proofs of the
specification's testable properties about them.

Modelling conventions, used throughout:
* Python's global `random` module is modelled by an explicit generator state
  (`PyRandom`) threaded through every call, so seeded runs are pure functions.
* Python binary floats are modelled by exact rationals (`ℚ`); `round(x, d)` is
  modelled by decimal rounding on `ℚ`.
* `int(x)` applied to a nonnegative float product such as `int(n * 0.6)` is
  modelled by exact integer division (`n * 6 / 10`); no claim below depends on
  the double-precision artefacts of these conversions.
-/

namespace Codetop

/-- Deterministic model of the state of Python's global `random` module.
The mixing function in `PyRandom.next` is a linear-congruential stand-in for
CPython's Mersenne Twister: every proof in this development depends only on the
generator being a deterministic function of its state and on the range
contracts of `randint`/`uniform`, never on particular stream values. -/
structure PyRandom where
  state : ℕ
deriving DecidableEq

def pyModulus : ℕ := 2 ^ 31

/-- Model of `random.seed(n)` (`generate_frequency_inserts.py` line 149 and the
`random.seed(42)` calls of the other generator scripts). -/
def PyRandom.seed (n : ℕ) : PyRandom := ⟨n % pyModulus⟩

/-- One raw draw from the generator: a natural number strictly below
`pyModulus`, together with the successor state. -/
def PyRandom.next (g : PyRandom) : ℕ × PyRandom :=
  ((g.state * 1103515245 + 12345) % pyModulus,
   ⟨(g.state * 1103515245 + 12345) % pyModulus⟩)

/-- Model of `random.randint(a, b)`: an integer drawn from `[a, b]`, both
endpoints included, threading the generator state. -/
def randint (a b : ℤ) (g : PyRandom) : ℤ × PyRandom :=
  (a + (g.next.1 : ℤ) % (b - a + 1), g.next.2)

/-- Model of `random.uniform(a, b)`: a rational drawn from `[a, b]`, threading
the generator state.  CPython computes `a + (b - a) * random()` with
`random()` uniform on `[0, 1)`; the model does the same with an exact rational
in place of the 53-bit float. -/
def uniform (a b : ℚ) (g : PyRandom) : ℚ × PyRandom :=
  (a + (b - a) * (g.next.1 : ℚ) / (pyModulus : ℚ), g.next.2)

/-- Model of Python's `round(x, d)` on the exact rational value of `x`:
multiply by `10 ^ d`, round to the nearest integer, divide back.  (CPython
rounds the nearest binary double and breaks ties to even; no claim in this
development depends on the tie-breaking rule or on double precision.) -/
def roundTo (d : ℕ) (q : ℚ) : ℚ := (round (q * 10 ^ d) : ℚ) / 10 ^ d

theorem PyRandom.next_lt (g : PyRandom) : (g.next).1 < pyModulus :=
  Nat.mod_lt _ (by norm_num [pyModulus])

theorem randint_mem (a b : ℤ) (g : PyRandom) (h : a ≤ b) :
    a ≤ (randint a b g).1 ∧ (randint a b g).1 ≤ b := by
  have hne : b - a + 1 ≠ 0 := by omega
  have hpos : (0 : ℤ) < b - a + 1 := by omega
  have h1 := Int.emod_nonneg ((g.next.1 : ℤ)) hne
  have h2 := Int.emod_lt_of_pos ((g.next.1 : ℤ)) hpos
  unfold randint
  omega

theorem uniform_mem (a b : ℚ) (g : PyRandom) (h : a ≤ b) :
    a ≤ (uniform a b g).1 ∧ (uniform a b g).1 ≤ b := by
  have hv0 : (0 : ℚ) ≤ ((g.next.1 : ℕ) : ℚ) := Nat.cast_nonneg _
  have hv1 : ((g.next.1 : ℕ) : ℚ) ≤ (pyModulus : ℚ) := by
    exact_mod_cast le_of_lt (PyRandom.next_lt g)
  have hM : (0 : ℚ) < (pyModulus : ℚ) := by norm_num [pyModulus]
  have hba : (0 : ℚ) ≤ b - a := by linarith
  constructor
  · have hnn : 0 ≤ (b - a) * (g.next.1 : ℚ) / (pyModulus : ℚ) :=
      div_nonneg (mul_nonneg hba hv0) hM.le
    show a ≤ a + (b - a) * (g.next.1 : ℚ) / (pyModulus : ℚ)
    linarith
  · have hmul : (b - a) * (g.next.1 : ℚ) ≤ (b - a) * (pyModulus : ℚ) :=
      mul_le_mul_of_nonneg_left hv1 hba
    have hdiv : (b - a) * (g.next.1 : ℚ) / (pyModulus : ℚ) ≤ b - a := by
      rw [div_le_iff₀ hM]
      calc (b - a) * (g.next.1 : ℚ) ≤ (b - a) * (pyModulus : ℚ) := hmul
        _ = (b - a) * (pyModulus : ℚ) := rfl
    show a + (b - a) * (g.next.1 : ℚ) / (pyModulus : ℚ) ≤ b
    linarith

theorem roundTo_intCast (d : ℕ) (n : ℤ) : roundTo d ((n : ℚ)) = n := by
  unfold roundTo
  rw [show ((n : ℚ) * 10 ^ d) = (((n * 10 ^ d : ℤ)) : ℚ) by push_cast; ring]
  rw [round_intCast]
  push_cast
  rw [mul_div_assoc, div_self (by positivity : ((10 : ℚ) ^ d) ≠ 0), mul_one]

theorem roundTo_mem (d : ℕ) (a b : ℤ) (x : ℚ)
    (h1 : (a : ℚ) / 10 ^ d ≤ x) (h2 : x ≤ (b : ℚ) / 10 ^ d) :
    (a : ℚ) / 10 ^ d ≤ roundTo d x ∧ roundTo d x ≤ (b : ℚ) / 10 ^ d := by
  have hp : (0 : ℚ) < 10 ^ d := by positivity
  have ha : (a : ℚ) ≤ x * 10 ^ d := by
    rw [div_le_iff₀ hp] at h1; exact h1
  have hb : x * 10 ^ d ≤ (b : ℚ) := by
    rw [le_div_iff₀ hp] at h2; exact h2
  have hra : a ≤ round (x * 10 ^ d) := by
    rw [round_eq]
    exact Int.le_floor.mpr (by linarith)
  have hfb : (⌊(b : ℚ) + 1 / 2⌋ : ℤ) = b := by
    rw [Int.floor_int_add]
    norm_num
  have hrb : round (x * 10 ^ d) ≤ b := by
    rw [round_eq]
    calc (⌊x * 10 ^ d + 1 / 2⌋ : ℤ) ≤ ⌊(b : ℚ) + 1 / 2⌋ :=
          Int.floor_le_floor (by linarith)
      _ = b := hfb
  constructor
  · unfold roundTo
    gcongr
  · unfold roundTo
    gcongr

/-- The aggregation level of a frequency sample, as used by
`generate_realistic_metrics` (`scope_type`) and the `stats_scope` column. -/
inductive Scope where
  | GLOBAL
  | COMPANY
  | DEPARTMENT
deriving DecidableEq

/-- The bundle of synthetic interview metrics returned (as a Python dict) by
`generate_interview_metrics`, `generate_global_metrics` and
`generate_realistic_metrics`. -/
structure MetricBundle where
  interview_count : ℤ
  unique_interviewers : ℤ
  percentile : ℚ
  avg_difficulty_rating : ℚ
  success_rate : ℚ
  avg_solve_time_minutes : ℤ
deriving DecidableEq

/-! Tier tables of `generate_interview_metrics`
    (`generate_frequency_inserts.py` lines 40-61), read directly off the
    `if`/`elif`/`else` chains of the source. -/

/-- Bounds of the `random.uniform` call choosing `avg_difficulty` in
`generate_interview_metrics`, selected by rank tier. -/
def difficultyBounds (rank : ℤ) : ℚ × ℚ :=
  if rank ≤ 20 then (2.0, 3.5)
  else if rank ≤ 50 then (2.5, 4.0)
  else (3.0, 4.5)

/-- Bounds of the `random.uniform` call choosing `success_rate` in
`generate_interview_metrics`, selected by difficulty tier. -/
def successRateBounds (avg_difficulty : ℚ) : ℚ × ℚ :=
  if avg_difficulty ≤ 2.5 then (70, 90)
  else if avg_difficulty ≤ 3.5 then (50, 75)
  else (30, 60)

/-- Bounds of the `random.randint` call choosing `solve_time` in
`generate_interview_metrics`, selected by difficulty tier. -/
def solveTimeBounds (avg_difficulty : ℚ) : ℤ × ℤ :=
  if avg_difficulty ≤ 2.5 then (10, 20)
  else if avg_difficulty ≤ 3.5 then (20, 35)
  else (35, 50)

/-- Embedding of `generate_interview_metrics(frequency_score, rank)`
(`generate_frequency_inserts.py` lines 25-70).  `int(frequency_score / 5)` on
a nonnegative score is natural division by 5; `int(interview_count * 0.5)` is
division by 2 (0.5 is exact in binary).  Draws happen in source order. -/
def generate_interview_metrics (frequency_score : ℕ) (rank : ℤ) (g : PyRandom) :
    MetricBundle × PyRandom :=
  let base_interviews : ℤ := max 1 ((frequency_score / 5 : ℕ) : ℤ)
  let d1 := randint (-5) 5 g
  let interview_count := max 1 (base_interviews + d1.1)
  let d2 := randint (-2) 2 d1.2
  let unique0 := max 1 (interview_count / 2 + d2.1)
  let unique_interviewers := max 1 (min unique0 interview_count)
  let percentile := roundTo 2 (101 - (rank : ℚ))
  let db := difficultyBounds rank
  let d3 := uniform db.1 db.2 d2.2
  let avg_difficulty := roundTo 1 d3.1
  let sb := successRateBounds avg_difficulty
  let d4 := uniform sb.1 sb.2 d3.2
  let success_rate := roundTo 1 d4.1
  let tb := solveTimeBounds avg_difficulty
  let d5 := randint tb.1 tb.2 d4.2
  (⟨interview_count, unique_interviewers, percentile, avg_difficulty,
    success_rate, d5.1⟩, d5.2)

/-! Tier tables of `generate_global_metrics`
    (`restore_global_frequency_stats.py` lines 38-83). -/

/-- Difficulty-draw bounds by rank tier in `generate_global_metrics`. -/
def globalDifficultyBounds (rank : ℤ) : ℚ × ℚ :=
  if rank ≤ 20 then (2.5, 3.8)
  else if rank ≤ 50 then (2.8, 4.2)
  else (3.2, 4.5)

/-- Success-rate bounds by difficulty tier in `generate_global_metrics`. -/
def globalSuccessBounds (avg_difficulty : ℚ) : ℚ × ℚ :=
  if avg_difficulty ≤ 2.5 then (75, 92)
  else if avg_difficulty ≤ 3.5 then (50, 78)
  else (28, 58)

/-- Solve-time bounds by difficulty tier in `generate_global_metrics`. -/
def globalSolveBounds (avg_difficulty : ℚ) : ℤ × ℤ :=
  if avg_difficulty ≤ 2.5 then (10, 22)
  else if avg_difficulty ≤ 3.5 then (18, 38)
  else (32, 55)

/-- Embedding of `generate_global_metrics(frequency_score, rank)`
(`restore_global_frequency_stats.py` lines 38-83).
`int(interview_count * 0.6)` is modelled as `interview_count * 6 / 10`. -/
def generate_global_metrics (frequency_score : ℕ) (rank : ℤ) (g : PyRandom) :
    MetricBundle × PyRandom :=
  let base_interviews : ℤ := max 1 ((frequency_score / 5 : ℕ) : ℤ)
  let d1 := randint (-5) 5 g
  let interview_count := max 1 (base_interviews + d1.1)
  let d2 := randint (-3) 3 d1.2
  let unique0 := max 1 (interview_count * 6 / 10 + d2.1)
  let unique_interviewers := max 1 (min unique0 interview_count)
  let percentile := roundTo 2 (101 - (rank : ℚ))
  let db := globalDifficultyBounds rank
  let d3 := uniform db.1 db.2 d2.2
  let avg_difficulty := roundTo 1 d3.1
  let sb := globalSuccessBounds avg_difficulty
  let d4 := uniform sb.1 sb.2 d3.2
  let success_rate := roundTo 1 d4.1
  let tb := globalSolveBounds avg_difficulty
  let d5 := randint tb.1 tb.2 d4.2
  (⟨interview_count, unique_interviewers, percentile, avg_difficulty,
    success_rate, d5.1⟩, d5.2)

/-! Tier tables of `generate_realistic_metrics`
    (`generate_company_frequency_stats.py` lines 123-171). -/

/-- Difficulty-draw bounds by scope in `generate_realistic_metrics`. -/
def companyDifficultyBounds (scope_type : Scope) : ℚ × ℚ :=
  if scope_type = Scope.COMPANY then (2.2, 4.0) else (2.5, 4.2)

/-- Success-rate bounds by difficulty tier in `generate_realistic_metrics`. -/
def companySuccessBounds (avg_difficulty : ℚ) : ℚ × ℚ :=
  if avg_difficulty ≤ 2.5 then (65, 85)
  else if avg_difficulty ≤ 3.5 then (45, 70)
  else (25, 55)

/-- Solve-time bounds by difficulty tier in `generate_realistic_metrics`. -/
def companySolveBounds (avg_difficulty : ℚ) : ℤ × ℤ :=
  if avg_difficulty ≤ 2.5 then (12, 22)
  else if avg_difficulty ≤ 3.5 then (22, 38)
  else (35, 55)

/-- Embedding of
`generate_realistic_metrics(frequency_score, scope_type, rank_within_scope)`
(`generate_company_frequency_stats.py` lines 123-171).  The unique-interviewer
fraction is 0.6 for `COMPANY` and 0.4 otherwise; `int(interview_count * r)` is
modelled as exact integer division. -/
def generate_realistic_metrics (frequency_score : ℕ) (scope_type : Scope)
    (rank_within_scope : ℤ) (g : PyRandom) : MetricBundle × PyRandom :=
  let base_interviews : ℤ := max 1 ((frequency_score / 8 : ℕ) : ℤ)
  let d1 := randint (-3) 3 g
  let interview_count := max 1 (base_interviews + d1.1)
  let uniqueNumer : ℤ := if scope_type = Scope.COMPANY then 6 else 4
  let d2 := randint (-1) 1 d1.2
  let unique0 := max 1 (interview_count * uniqueNumer / 10 + d2.1)
  let unique_interviewers := max 1 (min unique0 interview_count)
  let percentile := roundTo 2 (max 1.0 (101 - (rank_within_scope : ℚ)))
  let db := companyDifficultyBounds scope_type
  let d3 := uniform db.1 db.2 d2.2
  let avg_difficulty := roundTo 1 d3.1
  let sb := companySuccessBounds avg_difficulty
  let d4 := uniform sb.1 sb.2 d3.2
  let success_rate := roundTo 1 d4.1
  let tb := companySolveBounds avg_difficulty
  let d5 := randint tb.1 tb.2 d4.2
  (⟨interview_count, unique_interviewers, percentile, avg_difficulty,
    success_rate, d5.1⟩, d5.2)

/-! ## Invariants of the generated bundles (spec section 8) -/

/-- C4: for every rawScore (a natural number, hence `≥ 0`), every rank and
every scope, each of the three metric generators yields a bundle with
`interview_count ≥ 1` and `1 ≤ unique_interviewers ≤ interview_count`:
the `max(1, ...)` / `min(..., interview_count)` clamps of the sources
(`generate_frequency_inserts.py` lines 28-34,
`generate_company_frequency_stats.py` lines 126-137,
`restore_global_frequency_stats.py` lines 41-47) enforce the invariant. -/
theorem metric_bundle_invariants (frequency_score : ℕ) (rank : ℤ)
    (scope_type : Scope) (g1 g2 g3 : PyRandom) :
    (1 ≤ ((generate_interview_metrics frequency_score rank g1).1).interview_count ∧
     1 ≤ ((generate_interview_metrics frequency_score rank g1).1).unique_interviewers ∧
     ((generate_interview_metrics frequency_score rank g1).1).unique_interviewers ≤
       ((generate_interview_metrics frequency_score rank g1).1).interview_count) ∧
    (1 ≤ ((generate_global_metrics frequency_score rank g2).1).interview_count ∧
     1 ≤ ((generate_global_metrics frequency_score rank g2).1).unique_interviewers ∧
     ((generate_global_metrics frequency_score rank g2).1).unique_interviewers ≤
       ((generate_global_metrics frequency_score rank g2).1).interview_count) ∧
    (1 ≤ ((generate_realistic_metrics frequency_score scope_type rank g3).1).interview_count ∧
     1 ≤ ((generate_realistic_metrics frequency_score scope_type rank g3).1).unique_interviewers ∧
     ((generate_realistic_metrics frequency_score scope_type rank g3).1).unique_interviewers ≤
       ((generate_realistic_metrics frequency_score scope_type rank g3).1).interview_count) := by
  refine ⟨?_, ?_, ?_⟩
  · simp only [generate_interview_metrics]
    omega
  · simp only [generate_global_metrics]
    omega
  · simp only [generate_realistic_metrics]
    omega

/-! ## The percentile formula (claim C2) -/

/-- C2 fails as stated: at rank 101 the percentile produced by
`generate_interview_metrics` is `round(101 - 101, 2) = 0`
(`generate_frequency_inserts.py` line 37 has no `max(1.0, ...)` clamp),
whereas the claimed formula `max(1.0, 101 - rank)` rounded gives 1. -/
theorem percentile_unclamped_cex :
    ((generate_interview_metrics 79 101 (PyRandom.seed 42)).1).percentile ≠
      roundTo 2 (max 1.0 (101 - ((101 : ℤ) : ℚ))) := by
  have h0 : ((generate_interview_metrics 79 101 (PyRandom.seed 42)).1).percentile
      = roundTo 2 (101 - ((101 : ℤ) : ℚ)) := by
    simp only [generate_interview_metrics]
  have h1 : roundTo 2 (101 - ((101 : ℤ) : ℚ)) = ((0 : ℤ) : ℚ) := by
    rw [show (101 - ((101 : ℤ) : ℚ)) = (((0 : ℤ)) : ℚ) by norm_num]
    exact roundTo_intCast 2 0
  have h2 : roundTo 2 (max 1.0 (101 - ((101 : ℤ) : ℚ))) = ((1 : ℤ) : ℚ) := by
    rw [show (max 1.0 (101 - ((101 : ℤ) : ℚ))) = (((1 : ℤ)) : ℚ) by norm_num]
    exact roundTo_intCast 2 1
  rw [h0, h1, h2]
  norm_num

/-- C2 (amended): `generate_interview_metrics` and `generate_global_metrics`
set `percentile = round(101 - rank, 2)` with no clamp, while
`generate_realistic_metrics` sets `percentile = round(max(1.0, 101 - rank), 2)`;
for every rank in [1, 100] all three agree with `101 - rank` exactly. -/
theorem percentile_formula (frequency_score : ℕ) (rank : ℤ) (scope_type : Scope)
    (g1 g2 g3 : PyRandom) :
    ((generate_interview_metrics frequency_score rank g1).1).percentile =
        roundTo 2 (101 - (rank : ℚ)) ∧
    ((generate_global_metrics frequency_score rank g2).1).percentile =
        roundTo 2 (101 - (rank : ℚ)) ∧
    ((generate_realistic_metrics frequency_score scope_type rank g3).1).percentile =
        roundTo 2 (max 1.0 (101 - (rank : ℚ))) ∧
    (1 ≤ rank → rank ≤ 100 →
      ((generate_interview_metrics frequency_score rank g1).1).percentile =
          101 - (rank : ℚ) ∧
      ((generate_global_metrics frequency_score rank g2).1).percentile =
          101 - (rank : ℚ) ∧
      ((generate_realistic_metrics frequency_score scope_type rank g3).1).percentile =
          101 - (rank : ℚ)) := by
  have hint : (101 - (rank : ℚ)) = (((101 - rank : ℤ)) : ℚ) := by push_cast; ring
  have hval : roundTo 2 (101 - (rank : ℚ)) = 101 - (rank : ℚ) := by
    rw [hint, roundTo_intCast]
  refine ⟨?_, ?_, ?_, ?_⟩
  · simp only [generate_interview_metrics]
  · simp only [generate_global_metrics]
  · simp only [generate_realistic_metrics]
  · intro h1 h100
    have hmax : max 1.0 (101 - (rank : ℚ)) = 101 - (rank : ℚ) := by
      rw [max_eq_right]
      · rw [show (1.0 : ℚ) = 1 by norm_num]
        have : (rank : ℚ) ≤ 100 := by exact_mod_cast h100
        linarith
    refine ⟨?_, ?_, ?_⟩
    · simp only [generate_interview_metrics]
      exact hval
    · simp only [generate_global_metrics]
      exact hval
    · simp only [generate_realistic_metrics, hmax]
      exact hval

/-- Concrete instance of `percentile_formula`: at rank 1 (the example of spec
section 8) all generators give percentile `100`. -/
theorem percentile_formula_witness :
    ((generate_interview_metrics 976 1 (PyRandom.seed 42)).1).percentile =
        101 - ((1 : ℤ) : ℚ) ∧
    ((generate_global_metrics 976 1 (PyRandom.seed 42)).1).percentile =
        101 - ((1 : ℤ) : ℚ) ∧
    ((generate_realistic_metrics 976 Scope.COMPANY 1 (PyRandom.seed 42)).1).percentile =
        101 - ((1 : ℤ) : ℚ) :=
  (percentile_formula 976 1 Scope.COMPANY (PyRandom.seed 42) (PyRandom.seed 42)
      (PyRandom.seed 42)).2.2.2 (by norm_num) (by norm_num)

/-! ## Determinism of the seeded run (claim C1) -/

/-- Dispatch of one `(rawScore, rank, scope)` input to the metric generator of
its scope: `generate_interview_metrics` serves the GLOBAL scope
(`generate_frequency_inserts.py`), `generate_realistic_metrics` the COMPANY
and DEPARTMENT scopes (`generate_company_frequency_stats.py`). -/
def generateForScope (input : ℕ × ℤ × Scope) (g : PyRandom) :
    MetricBundle × PyRandom :=
  match input with
  | (fs, rank, Scope.GLOBAL) => generate_interview_metrics fs rank g
  | (fs, rank, s) => generate_realistic_metrics fs s rank g

/-- The generator run over an input sequence, threading the generator state in
input order, as the scripts' `main` loops do. -/
def runGeneratorFrom : List (ℕ × ℤ × Scope) → PyRandom → List MetricBundle
  | [], _ => []
  | input :: rest, g =>
    (generateForScope input g).1 ::
      runGeneratorFrom rest (generateForScope input g).2

/-- A whole seeded run: `random.seed(seed)` followed by the generator over the
input sequence (`generate_frequency_inserts.py` lines 148-150). -/
def runGenerator (seed : ℕ) (inputs : List (ℕ × ℤ × Scope)) : List MetricBundle :=
  runGeneratorFrom inputs (PyRandom.seed seed)

/-- C1: two runs of the Synthetic Metrics Generator with the same seed and the
same input sequence produce identical MetricBundles at every position (in
particular the same `interview_count`, `unique_interviewers`, `percentile`,
`avg_difficulty_rating`, `success_rate` and `avg_solve_time_minutes`): the
whole run is a pure function of the seed and the inputs. -/
theorem runGenerator_deterministic (seed1 seed2 : ℕ)
    (inputs1 inputs2 : List (ℕ × ℤ × Scope))
    (hs : seed1 = seed2) (hi : inputs1 = inputs2) :
    runGenerator seed1 inputs1 = runGenerator seed2 inputs2 ∧
    ∀ i : ℕ, (runGenerator seed1 inputs1).get? i = (runGenerator seed2 inputs2).get? i := by
  subst hs
  subst hi
  exact ⟨rfl, fun _ => rfl⟩

/-- Concrete instance of `runGenerator_deterministic` at seed 42 over the
spec's example input. -/
theorem runGenerator_deterministic_witness :
    runGenerator 42 [(976, 1, Scope.GLOBAL)] = runGenerator 42 [(976, 1, Scope.GLOBAL)] ∧
    ∀ i : ℕ, (runGenerator 42 [(976, 1, Scope.GLOBAL)]).get? i =
      (runGenerator 42 [(976, 1, Scope.GLOBAL)]).get? i :=
  runGenerator_deterministic 42 42 [(976, 1, Scope.GLOBAL)] [(976, 1, Scope.GLOBAL)] rfl rfl

/-! ## Difficulty-tier ranges for success rate and solve time (claim C8) -/

/-- Rounding to one decimal keeps a value inside an interval with integer
endpoints. -/
theorem roundTo_one_mem (a b : ℤ) (x : ℚ) (h1 : (a : ℚ) ≤ x) (h2 : x ≤ (b : ℚ)) :
    (a : ℚ) ≤ roundTo 1 x ∧ roundTo 1 x ≤ (b : ℚ) := by
  have ha : ((a * 10 : ℤ) : ℚ) / 10 ^ 1 = (a : ℚ) := by push_cast; ring
  have hb : ((b * 10 : ℤ) : ℚ) / 10 ^ 1 = (b : ℚ) := by push_cast; ring
  have := roundTo_mem 1 (a * 10) (b * 10) x (by rw [ha]; exact h1) (by rw [hb]; exact h2)
  rw [ha, hb] at this
  exact this

/-- A `round(random.uniform(lo, hi), 1)` draw with integer bounds lands in
`[lo, hi]`. -/
theorem uniform_roundTo_one_mem (lo hi : ℤ) (g : PyRandom) (h : (lo : ℚ) ≤ (hi : ℚ)) :
    (lo : ℚ) ≤ roundTo 1 (uniform lo hi g).1 ∧ roundTo 1 (uniform lo hi g).1 ≤ (hi : ℚ) := by
  have hu := uniform_mem lo hi g h
  exact roundTo_one_mem lo hi _ hu.1 hu.2

/-- C8 fails as stated: the three per-tier ranges are not pairwise disjoint.
The value 72 lies in both the first (`avg_difficulty ≤ 2.5`, range `[70, 90]`)
and the second (`avg_difficulty ≤ 3.5`, range `[50, 75]`) success-rate range
of `generate_interview_metrics`, and solve time 20 lies in both the first
(`[10, 20]`) and the second (`[20, 35]`) solve-time range
(`generate_frequency_inserts.py` lines 47-61). -/
theorem tier_ranges_not_disjoint :
    ((successRateBounds 2).1 ≤ (72 : ℚ) ∧ (72 : ℚ) ≤ (successRateBounds 2).2) ∧
    ((successRateBounds 3).1 ≤ (72 : ℚ) ∧ (72 : ℚ) ≤ (successRateBounds 3).2) ∧
    ((solveTimeBounds 2).1 ≤ (20 : ℤ) ∧ (20 : ℤ) ≤ (solveTimeBounds 2).2) ∧
    ((solveTimeBounds 3).1 ≤ (20 : ℤ) ∧ (20 : ℤ) ≤ (solveTimeBounds 3).2) ∧
    successRateBounds 2 ≠ successRateBounds 3 ∧ solveTimeBounds 2 ≠ solveTimeBounds 3 := by
  norm_num [successRateBounds, solveTimeBounds]

/-- The success-rate stage of `generate_interview_metrics`: a one-decimal
rounding of a uniform draw over the range its difficulty tier selects stays in
that range. -/
theorem success_stage_mem (D : ℚ) (G : PyRandom) :
    (successRateBounds D).1 ≤
      roundTo 1 (uniform (successRateBounds D).1 (successRateBounds D).2 G).1 ∧
    roundTo 1 (uniform (successRateBounds D).1 (successRateBounds D).2 G).1 ≤
      (successRateBounds D).2 := by
  obtain ⟨a, b, hab, hle⟩ :
      ∃ a b : ℤ, successRateBounds D = ((a : ℚ), (b : ℚ)) ∧ (a : ℚ) ≤ (b : ℚ) := by
    unfold successRateBounds
    split
    · exact ⟨70, 90, by norm_num, by norm_num⟩
    · split
      · exact ⟨50, 75, by norm_num, by norm_num⟩
      · exact ⟨30, 60, by norm_num, by norm_num⟩
  rw [hab]
  exact uniform_roundTo_one_mem a b G hle

/-- The solve-time stage of `generate_interview_metrics`: the `randint` draw
over the range its difficulty tier selects stays in that range. -/
theorem solve_stage_mem (D : ℚ) (G : PyRandom) :
    (solveTimeBounds D).1 ≤ (randint (solveTimeBounds D).1 (solveTimeBounds D).2 G).1 ∧
    (randint (solveTimeBounds D).1 (solveTimeBounds D).2 G).1 ≤ (solveTimeBounds D).2 := by
  apply randint_mem
  unfold solveTimeBounds
  split
  · norm_num
  · split <;> norm_num

/-- C8 (amended): `success_rate` is `round(uniform(lo, hi), 1)` and
`avg_solve_time_minutes` is `randint(lo, hi)` where `(lo, hi)` is the range
the bundle's own difficulty tier selects (tiers `≤ 2.5`, `≤ 3.5`, `> 3.5`);
lower tiers use ranges with higher success-rate bounds and lower solve-time
bounds, but adjacent ranges overlap rather than being disjoint.  Stated for
`generate_interview_metrics`; the tier tables of the three generator scripts
are recorded below as evaluation facts. -/
theorem metric_tier_ranges (frequency_score : ℕ) (rank : ℤ) (g : PyRandom) :
    ((successRateBounds
        ((generate_interview_metrics frequency_score rank g).1).avg_difficulty_rating).1 ≤
      ((generate_interview_metrics frequency_score rank g).1).success_rate ∧
     ((generate_interview_metrics frequency_score rank g).1).success_rate ≤
      (successRateBounds
        ((generate_interview_metrics frequency_score rank g).1).avg_difficulty_rating).2) ∧
    ((solveTimeBounds
        ((generate_interview_metrics frequency_score rank g).1).avg_difficulty_rating).1 ≤
      ((generate_interview_metrics frequency_score rank g).1).avg_solve_time_minutes ∧
     ((generate_interview_metrics frequency_score rank g).1).avg_solve_time_minutes ≤
      (solveTimeBounds
        ((generate_interview_metrics frequency_score rank g).1).avg_difficulty_rating).2) ∧
    successRateBounds 2 = (70, 90) ∧ successRateBounds 3 = (50, 75) ∧
    successRateBounds 4 = (30, 60) ∧
    solveTimeBounds 2 = (10, 20) ∧ solveTimeBounds 3 = (20, 35) ∧
    solveTimeBounds 4 = (35, 50) := by
  simp only [generate_interview_metrics]
  refine ⟨success_stage_mem _ _, solve_stage_mem _ _, ?_, ?_, ?_, ?_, ?_, ?_⟩
  · norm_num [successRateBounds]
  · norm_num [successRateBounds]
  · norm_num [successRateBounds]
  · norm_num [solveTimeBounds]
  · norm_num [solveTimeBounds]
  · norm_num [solveTimeBounds]

/-! ## Batch chunking and SQL emission (claims C3, C5, C9) -/

/-- The slicing pattern `data[i:i+batch_size]` for `i in range(0, len(data),
batch_size)` shared by the batch loops of `generate_frequency_inserts.py`
(line 98), `restore_global_frequency_stats.py` (line 107),
`generate_company_frequency_stats.py` (line 261) and `fetch_codetop_data.py`
(line 177): the list cut into consecutive chunks of `B` elements, the last
chunk possibly shorter.  (`B = 0` never occurs in the sources; that branch
only makes the recursion total.) -/
def chunks (B : ℕ) : List α → List (List α)
  | [] => []
  | x :: xs =>
    if B = 0 then [x :: xs]
    else (x :: xs).take B :: chunks B ((x :: xs).drop B)
termination_by l => l.length
decreasing_by
  simp only [List.length_drop, List.length_cons]
  omega

theorem chunks_nil (B : ℕ) : chunks B ([] : List α) = [] := by
  rw [chunks]

theorem chunks_ne_nil (B : ℕ) (l : List α) (hl : l ≠ []) (hB : B ≠ 0) :
    chunks B l = l.take B :: chunks B (l.drop B) := by
  match l with
  | [] => exact absurd rfl hl
  | x :: xs =>
    rw [chunks]
    simp [hB]

/-- Concatenating the chunks gives back the input: the batches cover the
records, in order, with nothing dropped or duplicated. -/
theorem chunks_flatten (B : ℕ) (l : List α) : (chunks B l).flatten = l := by
  by_cases hl : l = []
  · subst hl
    rw [chunks_nil]
    rfl
  · by_cases hB : B = 0
    · subst hB
      match l with
      | [] => exact absurd rfl hl
      | x :: xs =>
        rw [chunks]
        simp
    · rw [chunks_ne_nil B l hl hB]
      have ih : (chunks B (l.drop B)).flatten = l.drop B := chunks_flatten B (l.drop B)
      simp [ih]
termination_by l.length
decreasing_by
  have hpos : 0 < l.length := List.length_pos.mpr hl
  simp only [List.length_drop]
  omega

/-- Every chunk has at most `B` elements. -/
theorem chunks_mem_length (B : ℕ) (l : List α) (hB : B ≠ 0) :
    ∀ c ∈ chunks B l, c.length ≤ B := by
  by_cases hl : l = []
  · subst hl
    rw [chunks_nil]
    intro c hc
    exact absurd hc (List.not_mem_nil c)
  · rw [chunks_ne_nil B l hl hB]
    intro c hc
    rcases List.mem_cons.mp hc with h | h
    · subst h
      simp
    · exact chunks_mem_length B (l.drop B) hB c h
termination_by l.length
decreasing_by
  have hpos : 0 < l.length := List.length_pos.mpr hl
  simp only [List.length_drop]
  omega

/-- The number of chunks is `⌈length / B⌉`, computed as
`(length + B - 1) / B`. -/
theorem chunks_length (B : ℕ) (l : List α) (hB : B ≠ 0) :
    (chunks B l).length = (l.length + B - 1) / B := by
  by_cases hl : l = []
  · subst hl
    rw [chunks_nil]
    simp only [List.length_nil, List.length_nil]
    rw [Nat.div_eq_of_lt (by omega)]
  · rw [chunks_ne_nil B l hl hB]
    have hpos : 0 < l.length := List.length_pos.mpr hl
    have ih : (chunks B (l.drop B)).length = ((l.drop B).length + B - 1) / B :=
      chunks_length B (l.drop B) hB
    simp only [List.length_cons, ih, List.length_drop]
    rcases Nat.lt_or_ge B l.length with hlt | hge
    · have hrw : l.length + B - 1 = (l.length - B + B - 1) + B := by omega
      rw [hrw, Nat.add_div_right _ (by omega : 0 < B)]
    · have h1 : l.length - B = 0 := by omega
      have h2 : (l.length - B + B - 1) / B = 0 := Nat.div_eq_of_lt (by omega)
      have h3 : (l.length + B - 1) / B = 1 := by
        have hrw2 : l.length + B - 1 = (l.length - 1) + B := by omega
        rw [hrw2, Nat.add_div_right _ (by omega : 0 < B),
          Nat.div_eq_of_lt (by omega : l.length - 1 < B)]
      omega
termination_by l.length
decreasing_by
  have hpos : 0 < l.length := List.length_pos.mpr hl
  simp only [List.length_drop]
  omega

theorem flatten_map_map (f : α → β) (L : List (List α)) :
    (L.flatten).map f = (L.map (fun s => s.map f)).flatten := by
  induction L with
  | nil => rfl
  | cons b bs ih => simp [ih]

/-- One value tuple of the `problem_frequency_stats` INSERT built inside the
batch loop of `main` in `generate_frequency_inserts.py` (lines 103-115). -/
structure FreqRow where
  problem_id : ℕ
  total_frequency_score : ℕ
  metrics : MetricBundle
  days_ago : ℤ
  frequency_rank : ℕ
deriving DecidableEq

/-- The record key a row was rendered from. -/
def FreqRow.key (r : FreqRow) : ℕ × ℕ := (r.problem_id, r.total_frequency_score)

/-- Rendering of one `(problem_id, frequency_score)` record inside the batch
loop (`generate_frequency_inserts.py` lines 103-115): `rank = problem_id`, the
metric bundle, then the `days_ago = random.randint(1, 7)` draw. -/
def renderRow (rec : ℕ × ℕ) (g : PyRandom) : FreqRow × PyRandom :=
  let m := generate_interview_metrics rec.2 (rec.1 : ℤ) g
  let d := randint 1 7 m.2
  (⟨rec.1, rec.2, m.1, d.1, rec.1⟩, d.2)

/-- Rendering of one batch of records, threading the generator in order. -/
def renderBatch : List (ℕ × ℕ) → PyRandom → List FreqRow × PyRandom
  | [], g => ([], g)
  | r :: rs, g =>
    ((renderRow r g).1 :: (renderBatch rs (renderRow r g).2).1,
     (renderBatch rs (renderRow r g).2).2)

theorem renderBatch_map_key (rs : List (ℕ × ℕ)) (g : PyRandom) :
    ((renderBatch rs g).1).map FreqRow.key = rs := by
  induction rs generalizing g with
  | nil => rfl
  | cons r rs ih =>
    simp only [renderBatch, List.map_cons, ih]
    simp [renderRow, FreqRow.key]

/-- The sequence of INSERT statements (each represented by its list of value
tuples) produced by executing the batches in order, threading one generator
state across all batches as the script's single loop does. -/
def buildStatements : List (List (ℕ × ℕ)) → PyRandom → List (List FreqRow)
  | [], _ => []
  | b :: bs, g =>
    (renderBatch b g).1 :: buildStatements bs (renderBatch b g).2

theorem buildStatements_length (bs : List (List (ℕ × ℕ))) (g : PyRandom) :
    (buildStatements bs g).length = bs.length := by
  induction bs generalizing g with
  | nil => rfl
  | cons b bs ih => simp [buildStatements, ih]

theorem buildStatements_map_key (bs : List (List (ℕ × ℕ))) (g : PyRandom) :
    (buildStatements bs g).map (fun s => s.map FreqRow.key) = bs := by
  induction bs generalizing g with
  | nil => rfl
  | cons b bs ih =>
    simp only [buildStatements, List.map_cons, renderBatch_map_key, ih]

/-- Embedding of the batch-emission loop of `main` in
`generate_frequency_inserts.py` (lines 94-121): the record list is cut into
chunks of `B` (the script uses `B = 10`) and every chunk becomes one INSERT
statement whose value tuples are the renderings of the chunk's records. -/
def insertStatements (B : ℕ) (data : List (ℕ × ℕ)) (g : PyRandom) :
    List (List FreqRow) :=
  buildStatements (chunks B data) g

/-- C3: for a non-empty record list of length `N` and positive batch size `B`,
the emitter produces exactly `⌈N / B⌉` INSERT statements, each with at most
`B` value tuples; the tuples taken across all statements, in order, are the
renderings of exactly the input records, in order (so they number exactly
`N`). -/
theorem insertStatements_spec (B : ℕ) (data : List (ℕ × ℕ)) (g : PyRandom)
    (hB : 0 < B) (hdata : data ≠ []) :
    (insertStatements B data g).length = (data.length + B - 1) / B ∧
    (∀ s ∈ insertStatements B data g, s.length ≤ B) ∧
    ((insertStatements B data g).flatten).map FreqRow.key = data ∧
    ((insertStatements B data g).flatten).length = data.length := by
  have hB0 : B ≠ 0 := by omega
  have hkey : ((insertStatements B data g).flatten).map FreqRow.key = data := by
    unfold insertStatements
    rw [flatten_map_map, buildStatements_map_key]
    exact chunks_flatten B data
  refine ⟨?_, ?_, hkey, ?_⟩
  · unfold insertStatements
    rw [buildStatements_length]
    exact chunks_length B data hB0
  · intro s hs
    have hmem : s.map FreqRow.key ∈ chunks B data := by
      rw [← buildStatements_map_key (chunks B data) g]
      exact List.mem_map_of_mem _ hs
    have := chunks_mem_length B data hB0 (s.map FreqRow.key) hmem
    simpa using this
  · have h := congrArg List.length hkey
    rw [List.length_map] at h
    exact h

/-- Concrete instance of `insertStatements_spec`: three records with batch
size 2 give two statements covering all three records in order. -/
theorem insertStatements_spec_witness :
    (insertStatements 2 [(1, 976), (2, 790), (3, 694)] (PyRandom.seed 42)).length =
      (([(1, 976), (2, 790), (3, 694)] : List (ℕ × ℕ)).length + 2 - 1) / 2 ∧
    (∀ s ∈ insertStatements 2 [(1, 976), (2, 790), (3, 694)] (PyRandom.seed 42),
      s.length ≤ 2) ∧
    ((insertStatements 2 [(1, 976), (2, 790), (3, 694)] (PyRandom.seed 42)).flatten).map
        FreqRow.key = [(1, 976), (2, 790), (3, 694)] ∧
    ((insertStatements 2 [(1, 976), (2, 790), (3, 694)] (PyRandom.seed 42)).flatten).length =
      ([(1, 976), (2, 790), (3, 694)] : List (ℕ × ℕ)).length :=
  insertStatements_spec 2 [(1, 976), (2, 790), (3, 694)] (PyRandom.seed 42)
    (by norm_num) (by simp)

/-! ## Per-batch execution and failure handling (claim C5) -/

/-- Embedding of the batch-execution loop of `main` in
`generate_frequency_inserts.py` (lines 98-129): batches are executed in order
through `execute_mysql_command` (modelled by the oracle `exec`, which returns
the subprocess success flag for a statement); on success the loop continues,
on failure it prints the error and `break`s.  The result is the ordered list
of (statement, success) attempts actually made. -/
def runBatchesBreak (exec : α → Bool) : List α → List (α × Bool)
  | [] => []
  | b :: bs =>
    if exec b then (b, true) :: runBatchesBreak exec bs else [(b, false)]

/-- Embedding of the batch-execution loop inside
`generate_company_frequency_stats.generate_company_frequency_stats`
(lines 260-275): every batch is executed in order; a failed batch is printed
and the loop moves on to the next batch (no `break`, no rollback command is
ever issued). -/
def runBatchesAll (exec : α → Bool) (batches : List α) : List (α × Bool) :=
  batches.map (fun b => (b, exec b))

/-- The statements whose execution succeeded (the batches actually applied to
the database; no compensating/rollback statement exists in the scripts). -/
def appliedBatches (results : List (α × Bool)) : List α :=
  (results.filter (fun p => p.2)).map Prod.fst

/-- C5 fails as stated for `generate_frequency_inserts.py`: with an executor
that fails every statement, only the first of two batches is ever attempted —
the `break` on line 129 halts the remaining batches.  (The batches shown are
the real emitter output for two records at batch size 1.) -/
theorem failed_batch_halts_cex :
    (insertStatements 1 [(1, 976), (2, 790)] (PyRandom.seed 42)).length = 2 ∧
    (runBatchesBreak (fun _ => false)
        (insertStatements 1 [(1, 976), (2, 790)] (PyRandom.seed 42))).length = 1 := by
  have h2 : (insertStatements 1 [(1, 976), (2, 790)] (PyRandom.seed 42)).length = 2 := by
    rw [(insertStatements_spec 1 [(1, 976), (2, 790)] (PyRandom.seed 42)
      (by norm_num) (by simp)).1]
    decide
  refine ⟨h2, ?_⟩
  match hs : insertStatements 1 [(1, 976), (2, 790)] (PyRandom.seed 42) with
  | [] => rw [hs] at h2; simp at h2
  | [s] => rw [hs] at h2; simp at h2
  | s1 :: s2 :: rest =>
    rw [hs] at h2
    simp only [List.length_cons] at h2
    have hrest : rest = [] := by
      cases rest with
      | nil => rfl
      | cons r rs => simp at h2
    subst hrest
    simp [runBatchesBreak]

/-- C5 (amended): in `generate_company_frequency_stats.py` the loop attempts
every batch in order regardless of failures (a failed batch is only logged),
and the set of applied batches is exactly the successful ones — earlier
successful batches stay applied when a later batch fails (no rollback).  In
`generate_frequency_inserts.py` (and `restore_global_frequency_stats.py`) a
failed batch instead halts the remaining batches via `break`/`return`, while
batches already applied likewise stay applied. -/
theorem batch_failure_behavior (exec : α → Bool) (batches : List α) :
    (runBatchesAll exec batches).map Prod.fst = batches ∧
    appliedBatches (runBatchesAll exec batches) = batches.filter (fun b => exec b) ∧
    appliedBatches (runBatchesBreak exec batches) =
      (batches.takeWhile (fun b => exec b)) := by
  refine ⟨?_, ?_, ?_⟩
  · simp [runBatchesAll, Function.comp_def]
  · induction batches with
    | nil => rfl
    | cons b bs ih =>
      by_cases h : exec b <;>
        simp [runBatchesAll, appliedBatches, List.filter, h] at ih ⊢ <;>
        simpa [runBatchesAll, appliedBatches] using ih
  · induction batches with
    | nil => rfl
    | cons b bs ih =>
      by_cases h : exec b <;>
        simp [runBatchesBreak, appliedBatches, List.takeWhile, h] at ih ⊢ <;>
        simpa [appliedBatches] using ih

/-! ## Difficulty normalization (claim C6) -/

/-- Embedding of `map_difficulty` (`fetch_codetop_data.py` lines 40-46):
`{1: 'EASY', 2: 'MEDIUM', 3: 'HARD'}.get(level, 'MEDIUM')`. -/
def map_difficulty (level : ℤ) : String :=
  if level = 1 then "EASY"
  else if level = 2 then "MEDIUM"
  else if level = 3 then "HARD"
  else "MEDIUM"

/-- Embedding of `difficulty_level_to_name`
(`generate_comprehensive_problems_sql.py` lines 138-141), an identical
dictionary lookup with default `'MEDIUM'`. -/
def difficulty_level_to_name (level : ℤ) : String :=
  if level = 1 then "EASY"
  else if level = 2 then "MEDIUM"
  else if level = 3 then "HARD"
  else "MEDIUM"

/-- The level actually passed to `map_difficulty` by the record loop:
`leetcode_info.get('level', 2)` — a missing level defaults to 2
(`fetch_codetop_data.py` line 152). -/
def levelOrDefault (level : Option ℤ) : ℤ := level.getD 2

/-- C6: the difficulty normalization maps level 1 to EASY, 2 to MEDIUM and
3 to HARD; every other level maps to MEDIUM, and a missing level (defaulted to
2 at the call site) also yields MEDIUM.  `difficulty_level_to_name` agrees
with `map_difficulty` everywhere. -/
theorem map_difficulty_spec (level : ℤ) :
    map_difficulty 1 = "EASY" ∧
    map_difficulty 2 = "MEDIUM" ∧
    map_difficulty 3 = "HARD" ∧
    (level ≠ 1 → level ≠ 3 → map_difficulty level = "MEDIUM") ∧
    map_difficulty (levelOrDefault none) = "MEDIUM" ∧
    (∀ l : ℤ, difficulty_level_to_name l = map_difficulty l) := by
  refine ⟨rfl, rfl, rfl, ?_, rfl, ?_⟩
  · intro h1 h3
    unfold map_difficulty
    rw [if_neg h1]
    by_cases h2 : level = 2
    · rw [if_pos h2]
    · rw [if_neg h2, if_neg h3]
  · intro l
    unfold difficulty_level_to_name map_difficulty
    rfl

/-- Concrete instance of `map_difficulty_spec`: level 7 maps to MEDIUM. -/
theorem map_difficulty_spec_witness : map_difficulty 7 = "MEDIUM" :=
  (map_difficulty_spec 7).2.2.2.1 (by decide) (by decide)

/-! ## The fetcher and its caller (claim C7) -/

/-- The JSON payload shape `{ count: ..., list: [...] }` returned by the
CodeTop endpoint, each key optional as the sources access them through
`.get`/`in` (`fetch_codetop_data.py` lines 30, 274-279). -/
structure RawLeetcode where
  title : Option String
  frontend_question_id : Option ℤ
  level : Option ℤ
  slug_title : Option String
deriving DecidableEq

/-- One problem record of the payload's `list`. -/
structure RawItem where
  leetcode : Option RawLeetcode
  value : Option ℤ
  time : Option String
deriving DecidableEq

/-- The parsed JSON envelope. -/
structure Payload where
  count : Option ℕ
  problems : Option (List RawItem)
deriving DecidableEq

/-- The outcome of the single `requests.get` call as `fetch_all_problems`
observes it: either a raised `requests.RequestException` (connection failure
or timeout), or a response with a final HTTP status code and a body that
either parses as JSON (`some payload`) or raises `json.JSONDecodeError`
(`none`). -/
inductive FetchOutcome where
  | netError (msg : String)
  | response (status : ℕ) (body : Option Payload)
deriving DecidableEq

/-- Model of `requests.Response.raise_for_status` (called on line 27 of
`fetch_codetop_data.py`): the library raises `HTTPError` exactly for client
(4xx) and server (5xx) final status codes — not for every non-2xx code. -/
def raisesForStatus (status : ℕ) : Bool :=
  decide (400 ≤ status ∧ status < 600)

/-- The single GET request `fetch_all_problems` issues
(`fetch_codetop_data.py` line 26): fixed URL, fixed `timeout=30`. -/
structure HttpRequest where
  url : String
  timeout : ℕ
deriving DecidableEq

def codetopRequest : HttpRequest := ⟨"https://codetop.cc/api/questions", 30⟩

/-- The requests one run of `fetch_all_problems` issues, as a function of the
outcome: always the single fixed GET — there is no retry or backoff path in
the source, whatever the outcome. -/
def requestsIssued (outcome : FetchOutcome) : List HttpRequest :=
  [codetopRequest]

/-- Embedding of `fetch_all_problems` (`fetch_codetop_data.py` lines 13-38):
one GET; `requests.RequestException` (including the `HTTPError` of
`raise_for_status`) and `json.JSONDecodeError` are caught and the empty dict
(modelled `none`) is returned; otherwise the parsed payload is returned. -/
def fetch_all_problems : FetchOutcome → Option Payload
  | FetchOutcome.netError _ => none
  | FetchOutcome.response status body =>
    if raisesForStatus status then none
    else match body with
      | none => none
      | some p => some p

/-- The failure cases of the fetch: a raised network error, a 4xx/5xx status,
or a body that is not valid JSON. -/
def fetchFails : FetchOutcome → Prop
  | FetchOutcome.netError _ => True
  | FetchOutcome.response status body =>
    (400 ≤ status ∧ status < 600) ∨ body = none

/-! ## Problem-SQL generation (claims C9, C3's third source, C7's caller) -/

/-- The single-quote character, kept out of string literals for clarity. -/
def quoteChar : Char := Char.ofNat 39

/-- A one-character string holding a single quote. -/
def sq : String := String.mk [quoteChar]

/-- Replacement of every occurrence of one character by a string, the
single-character-pattern case of Python's `str.replace` (structural, so that
concrete instances compute). -/
def replaceChar (c : Char) (rep : List Char) : List Char → List Char
  | [] => []
  | x :: xs =>
    if x = c then rep ++ replaceChar c rep xs else x :: replaceChar c rep xs

/-- `s.replace(c, rep)` for a one-character pattern `c`. -/
def pyReplaceChar (s : String) (c : Char) (rep : String) : String :=
  String.mk (replaceChar c rep.data s.data)

/-- Bool-valued contiguous-sublist test, modelling Python's `pat in s`. -/
def listContainsSub (pat : List Char) : List Char → Bool
  | [] => pat.isEmpty
  | x :: xs => pat.isPrefixOf (x :: xs) || listContainsSub pat xs

/-- Python's `pat in s` on strings. -/
def strContains (s pat : String) : Bool := listContainsSub pat.data s.data

/-- Python's `str.lower`, character by character (the sources only test for
the ASCII word `premium` afterwards). -/
def pyLower (s : String) : String := String.mk (s.data.map Char.toLower)

/-- Embedding of `classify_tags(title, difficulty)` (`fetch_codetop_data.py`
lines 73-118): thirteen keyword rules evaluated in order, each appending one
tag when any of its keywords occurs in the title; when no rule fires, a
difficulty-based default tag. -/
def classify_tags (title : String) (difficulty : String) : List String :=
  let rule := fun (ws : List String) (tag : String) (acc : List String) =>
    if ws.any (fun w => strContains title w) then acc ++ [tag] else acc
  let tags : List String := []
  let tags := rule ["数组", "最大", "最小", "第K个", "合并", "排序"] "数组" tags
  let tags := rule ["字符串", "子串", "回文"] "字符串" tags
  let tags := rule ["链表", "反转", "合并"] "链表" tags
  let tags := rule ["二叉树", "树", "遍历"] "树" tags
  let tags := rule ["哈希", "LRU", "缓存"] "哈希表" tags
  let tags := rule ["搜索", "查找", "旋转"] "二分查找" tags
  let tags := rule ["岛屿", "图"] "深度优先搜索" tags
  let tags := rule ["层序", "层次"] "广度优先搜索" tags
  let tags := rule ["排列", "组合"] "回溯算法" tags
  let tags := rule ["动态", "最优", "最长", "最大和"] "动态规划" tags
  let tags := rule ["栈", "括号"] "栈" tags
  let tags := rule ["快速排序", "排序"] "排序" tags
  let tags := rule ["双指针", "三数之和", "两数之和"] "双指针" tags
  if tags = [] then
    if difficulty = "EASY" then ["基础算法"]
    else if difficulty = "HARD" then ["高级算法"]
    else ["算法"]
  else tags

/-- The fixed VALUES header line of the problems INSERT
(`fetch_codetop_data.py` line 142). -/
def problemInsertHeader : String :=
  "INSERT INTO problems (title, difficulty, problem_url, leetcode_id, tags, is_premium, is_active) VALUES"

/-- Rendering of one problem record into a SQL value tuple, the body of the
first loop of `generate_problem_sql` (`fetch_codetop_data.py` lines 146-169):
single quotes in the title are doubled, the difficulty comes from
`map_difficulty` with default level 2, the URL from the slug (or a fallback
pattern from the id), the tags from `classify_tags`, and the premium flag
from a keyword test on the (escaped) title. -/
def problem_value (i : ℕ) (item : RawItem) : String :=
  let leetcode_info := item.leetcode.getD ⟨none, none, none, none⟩
  let title := pyReplaceChar (leetcode_info.title.getD "") quoteChar (sq ++ sq)
  let leetcode_id := match leetcode_info.frontend_question_id with
    | some n => toString n
    | none => toString (i + 1)
  let difficulty := map_difficulty (levelOrDefault leetcode_info.level)
  let slug := leetcode_info.slug_title.getD ""
  let problem_url :=
    if slug ≠ "" then "https://leetcode.cn/problems/" ++ slug
    else "https://leetcode.cn/problems/problem-" ++ leetcode_id
  let tags := classify_tags title difficulty
  let tags_json :=
    "JSON_ARRAY(" ++ String.intercalate ", " (tags.map (fun t => sq ++ t ++ sq)) ++ ")"
  let is_premium :=
    if strContains (pyLower title) "premium" || strContains title "付费"
    then "true" else "false"
  "(" ++ sq ++ title ++ sq ++ ", " ++ sq ++ difficulty ++ sq ++ ", " ++
    sq ++ problem_url ++ sq ++ ", " ++ sq ++ leetcode_id ++ sq ++ ", " ++
    tags_json ++ ", " ++ is_premium ++ ", true)"

/-- The upsert clause lines appended after each batch
(`fetch_codetop_data.py` lines 188-194), ending with the blank separator
line. -/
def upsertTailLines : List String :=
  ["ON DUPLICATE KEY UPDATE",
   "title = VALUES(title),",
   "difficulty = VALUES(difficulty),",
   "problem_url = VALUES(problem_url),",
   "tags = VALUES(tags),",
   "updated_at = CURRENT_TIMESTAMP;",
   ""]

/-- The value lines of one batch: every tuple but the last gets a trailing
comma (`fetch_codetop_data.py` lines 182-186). -/
def commaJoin : List String → List String
  | [] => []
  | [v] => [v]
  | v :: vs => (v ++ ",") :: commaJoin vs

/-- The lines one batch contributes: a fresh VALUES header for every batch
after the first (`fetch_codetop_data.py` lines 179-180), the comma-joined
tuples, then the upsert clause. -/
def batchLines (first : Bool) (batch : List String) : List String :=
  (if first then [] else ["\n" ++ problemInsertHeader]) ++
    commaJoin batch ++ upsertTailLines

/-- All batches' lines, the first flagged. -/
def problemBatchesLines : Bool → List (List String) → List String
  | _, [] => []
  | first, b :: bs => batchLines first b ++ problemBatchesLines false bs

/-- Embedding of `generate_problem_sql(problems)` (`fetch_codetop_data.py`
lines 133-196) as its list of output lines (the source joins them with
newlines on line 196); `now` stands for the `datetime.now()` timestamp
rendered into the second comment line.  The VALUES header is appended once
before the batch loop; the loop over `chunks 100` then appends each batch's
tuples and upsert clause. -/
def generate_problem_sql (now : String) (problems : List RawItem) : List String :=
  let problem_values := problems.mapIdx problem_value
  ["-- CodeTop完整题目数据 (基于API真实数据)",
   "-- 生成时间: " ++ now,
   "-- 总题目数量: " ++ toString problems.length,
   "",
   problemInsertHeader] ++
    problemBatchesLines true (chunks 100 problem_values)

/-- Sorting of the fetched records by descending frequency before emission
(`fetch_codetop_data.py` line 284): a stable sort on `value` (missing value
read as 0, as `x.get('value', 0)` does). -/
def sortByValueDesc (problems : List RawItem) : List RawItem :=
  problems.mergeSort (fun a b => b.value.getD 0 ≤ a.value.getD 0)

/-- Abstraction of the SQL-producing tail of `main` (`fetch_codetop_data.py`
lines 269-305): `none` when the run aborts before generating any SQL (fetch
returned the empty dict, or the payload has no `list` key); otherwise the
problem-SQL lines generated from the sorted records.  (The further
`generate_frequency_sql` script part and the file write are downstream of
the same guard and elided.) -/
def mainRun (now : String) (outcome : FetchOutcome) : Option (List String) :=
  match fetch_all_problems outcome with
  | none => none
  | some data =>
    match data.problems with
    | none => none
    | some problems => some (generate_problem_sql now (sortByValueDesc problems))

/-- C7 fails as stated: `raise_for_status` raises only for 4xx/5xx codes, so
a final non-2xx status outside that range (here 300 Multiple Choices) with a
well-formed JSON body is returned as data, not as the empty result, and the
caller proceeds to generate SQL. -/
theorem fetch_non2xx_cex :
    fetch_all_problems (FetchOutcome.response 300 (some ⟨some 0, some []⟩)) =
      some ⟨some 0, some []⟩ ∧
    mainRun "2025-08-31" (FetchOutcome.response 300 (some ⟨some 0, some []⟩)) ≠
      none := by
  constructor
  · rfl
  · simp [mainRun, fetch_all_problems, raisesForStatus]

/-- C7 (amended): the fetcher issues exactly one GET with the fixed timeout
of 30 whatever the outcome (no retry), and on a raised network error, a 4xx
or 5xx status, or a malformed JSON body it returns the empty result, upon
which the caller aborts the whole run without generating any SQL. -/
theorem fetch_failure_aborts (now : String) (outcome : FetchOutcome)
    (h : fetchFails outcome) :
    fetch_all_problems outcome = none ∧
    mainRun now outcome = none ∧
    requestsIssued outcome = [codetopRequest] ∧
    (requestsIssued outcome).length = 1 ∧
    codetopRequest.timeout = 30 := by
  have hf : fetch_all_problems outcome = none := by
    match outcome with
    | FetchOutcome.netError m => rfl
    | FetchOutcome.response s b =>
      rcases h with h4 | hb
      · have hrs : raisesForStatus s = true := by
          unfold raisesForStatus
          exact decide_eq_true h4
        simp [fetch_all_problems, hrs]
      · subst hb
        cases hrs : raisesForStatus s <;> simp [fetch_all_problems, hrs]
  refine ⟨hf, ?_, rfl, rfl, rfl⟩
  simp [mainRun, hf]

/-- Concrete instance of `fetch_failure_aborts`: a raised timeout. -/
theorem fetch_failure_aborts_witness :
    fetch_all_problems (FetchOutcome.netError "timeout") = none ∧
    mainRun "2025-08-31" (FetchOutcome.netError "timeout") = none ∧
    requestsIssued (FetchOutcome.netError "timeout") = [codetopRequest] ∧
    (requestsIssued (FetchOutcome.netError "timeout")).length = 1 ∧
    codetopRequest.timeout = 30 :=
  fetch_failure_aborts "2025-08-31" (FetchOutcome.netError "timeout") trivial

/-- Strings with distinct first characters are distinct, also after appending
an arbitrary suffix to the first. -/
theorem append_ne_of_head_ne (pre tail s : String) (c1 c2 : Char)
    (h1 : pre.data.head? = some c1) (h2 : s.data.head? = some c2)
    (hne : c1 ≠ c2) : pre ++ tail ≠ s := by
  intro h
  have hd := congrArg String.data h
  rw [String.data_append] at hd
  match hl : pre.data with
  | [] =>
    rw [hl] at h1
    exact Option.noConfusion h1
  | c :: cs =>
    rw [hl] at h1 hd
    have hc1 : c = c1 := by
      simpa using h1
    have hs : s.data.head? = some c := by
      rw [← hd]
      rfl
    rw [h2] at hs
    have hc2 : c2 = c := by
      simpa using hs
    exact hne (hc1.symm.trans hc2.symm)

/-- C9: called on an empty record list, `generate_problem_sql` still emits
exactly one `INSERT ... VALUES` header line (appended before the batch loop),
but zero value tuples and no `ON DUPLICATE KEY UPDATE` clause, and the header
is the final line of the output — the opened INSERT statement is never closed
with `;`, so the empty-input output is not a sequence of complete SQL
statements. -/
theorem generate_problem_sql_empty (now : String) :
    generate_problem_sql now [] =
      ["-- CodeTop完整题目数据 (基于API真实数据)",
       "-- 生成时间: " ++ now,
       "-- 总题目数量: " ++ toString (0 : ℕ),
       "",
       problemInsertHeader] ∧
    (generate_problem_sql now []).count problemInsertHeader = 1 ∧
    "ON DUPLICATE KEY UPDATE" ∉ generate_problem_sql now [] ∧
    (([] : List RawItem).mapIdx problem_value).length = 0 ∧
    (generate_problem_sql now []).getLast? = some problemInsertHeader ∧
    problemInsertHeader.data.getLast? ≠ some (Char.ofNat 59) := by
  have hout : generate_problem_sql now [] =
      ["-- CodeTop完整题目数据 (基于API真实数据)",
       "-- 生成时间: " ++ now,
       "-- 总题目数量: " ++ toString (0 : ℕ),
       "",
       problemInsertHeader] := by
    unfold generate_problem_sql
    simp only [List.mapIdx_nil, List.length_nil, chunks_nil, problemBatchesLines,
      List.append_nil]
  have hne1 : ("-- CodeTop完整题目数据 (基于API真实数据)" : String) ≠ problemInsertHeader := by
    decide
  have hne2 : ("-- 生成时间: " ++ now) ≠ problemInsertHeader :=
    append_ne_of_head_ne "-- 生成时间: " now problemInsertHeader '-' 'I'
      (by decide) (by decide) (by decide)
  have hne3 : ("-- 总题目数量: " ++ toString (0 : ℕ)) ≠ problemInsertHeader :=
    append_ne_of_head_ne "-- 总题目数量: " (toString (0 : ℕ)) problemInsertHeader '-' 'I'
      (by decide) (by decide) (by decide)
  have hne4 : ("" : String) ≠ problemInsertHeader := by decide
  have hod1 : ("-- CodeTop完整题目数据 (基于API真实数据)" : String) ≠ "ON DUPLICATE KEY UPDATE" := by
    decide
  have hod2 : ("-- 生成时间: " ++ now) ≠ "ON DUPLICATE KEY UPDATE" :=
    append_ne_of_head_ne "-- 生成时间: " now "ON DUPLICATE KEY UPDATE" '-' 'O'
      (by decide) (by decide) (by decide)
  have hod3 : ("-- 总题目数量: " ++ toString (0 : ℕ)) ≠ "ON DUPLICATE KEY UPDATE" :=
    append_ne_of_head_ne "-- 总题目数量: " (toString (0 : ℕ)) "ON DUPLICATE KEY UPDATE" '-' 'O'
      (by decide) (by decide) (by decide)
  have hod4 : ("" : String) ≠ "ON DUPLICATE KEY UPDATE" := by decide
  have hod5 : problemInsertHeader ≠ "ON DUPLICATE KEY UPDATE" := by decide
  have hend : problemInsertHeader.data.getLast? ≠ some (Char.ofNat 59) := by
    decide
  refine ⟨hout, ?_, ?_, rfl, ?_, hend⟩
  · rw [hout]
    simp [List.count_cons, hne1, hne2, hne3, hne4]
  · rw [hout]
    intro hmem
    simp only [List.mem_cons, List.not_mem_nil, or_false] at hmem
    rcases hmem with h | h | h | h | h
    · exact hod1 h.symm
    · exact hod2 h.symm
    · exact hod3 h.symm
    · exact hod4 h.symm
    · exact hod5 h.symm
  · rw [hout]
    rfl

/-! ## Date formatting (claim C10) -/

/-- Value of one decimal digit character. -/
def digitVal (c : Char) : Option ℕ :=
  if c.isDigit then some (c.toNat - 48) else none

/-- A two-digit decimal number. -/
def twoDigits (a b : Char) : Option ℕ :=
  match digitVal a, digitVal b with
  | some x, some y => some (10 * x + y)
  | _, _ => none

/-- A four-digit decimal number. -/
def fourDigits (a b c d : Char) : Option ℕ :=
  match twoDigits a b, twoDigits c d with
  | some x, some y => some (100 * x + y)
  | _, _ => none

/-- Number of days of a month, Gregorian leap rule, as `datetime.date`
validates. -/
def daysInMonth (y m : ℕ) : ℕ :=
  if m = 2 then
    (if y % 4 = 0 ∧ (y % 100 ≠ 0 ∨ y % 400 = 0) then 29 else 28)
  else if m = 4 ∨ m = 6 ∨ m = 9 ∨ m = 11 then 30
  else 31

/-- A fractional-seconds suffix: one to six decimal digits. -/
def validFrac (cs : List Char) : Bool :=
  decide (1 ≤ cs.length) && decide (cs.length ≤ 6) && cs.all Char.isDigit

/-- A clock reading `HH:MM[:SS[.ffffff]]` with in-range fields, the shape
`datetime.fromisoformat` accepts for both the time of day and a numeric
offset. -/
def validHms (cs : List Char) : Bool :=
  match cs with
  | h1 :: h2 :: c1 :: m1 :: m2 :: rest =>
    match twoDigits h1 h2, twoDigits m1 m2 with
    | some hh, some mm =>
      decide (c1 = Char.ofNat 58) && decide (hh < 24) && decide (mm < 60) &&
        (match rest with
         | [] => true
         | c2 :: s1 :: s2 :: rest2 =>
           match twoDigits s1 s2 with
           | some ss =>
             decide (c2 = Char.ofNat 58) && decide (ss < 60) &&
               (match rest2 with
                | [] => true
                | c3 :: fs => decide (c3 = Char.ofNat 46) && validFrac fs)
           | none => false
         | _ => false)
    | _, _ => false
  | _ => false

/-- Splitting of the time part at the first `+` or `-` (the UTC-offset
marker; after the `'Z' -> '+00:00'` replacement no `Z` can remain). -/
def breakTz : List Char → List Char × Option (List Char)
  | [] => ([], none)
  | c :: rest =>
    if c = '+' ∨ c = '-' then ([], some rest)
    else ((c :: (breakTz rest).1), (breakTz rest).2)

/-- The whole part after the date separator: a clock, optionally followed by
a numeric offset of the same clock shape. -/
def validTimePart (cs : List Char) : Bool :=
  validHms (breakTz cs).1 &&
    (match (breakTz cs).2 with
     | none => true
     | some t => validHms t)

/-- The optional separator-plus-time tail after the ten date characters. -/
def validTail : List Char → Bool
  | [] => true
  | _ :: timecs => validTimePart timecs

/-- Model of `datetime.fromisoformat`, restricted to the fields `format_date`
uses: on a string `YYYY-MM-DD[<sep>HH:MM[:SS[.ffffff]][±HH:MM[...]]]` with a
valid calendar date it returns the `(year, month, day)` triple, otherwise
`none` (the raised `ValueError` of the library). -/
def fromisoformat (s : String) : Option (ℕ × ℕ × ℕ) :=
  match s.data with
  | y1 :: y2 :: y3 :: y4 :: c1 :: m1 :: m2 :: c2 :: d1 :: d2 :: rest =>
    match fourDigits y1 y2 y3 y4, twoDigits m1 m2, twoDigits d1 d2 with
    | some y, some m, some d =>
      if (c1 = Char.ofNat 45 ∧ c2 = Char.ofNat 45) ∧
         (1 ≤ y ∧ 1 ≤ m ∧ m ≤ 12 ∧ 1 ≤ d ∧ d ≤ daysInMonth y m) ∧
         validTail rest = true
      then some (y, m, d) else none
    | _, _, _ => none
  | _ => none

/-- Zero-padding to two digits, as `strftime('%m')`/`(%d)` do. -/
def pad2 (n : ℕ) : String :=
  if n < 10 then "0" ++ toString n else toString n

/-- Zero-padding to four digits, as CPython's `strftime('%Y')` does for the
years `fromisoformat` accepts. -/
def pad4 (n : ℕ) : String :=
  if n < 10 then "000" ++ toString n
  else if n < 100 then "00" ++ toString n
  else if n < 1000 then "0" ++ toString n
  else toString n

/-- The `dt.strftime('%Y-%m-%d')` rendering of the parsed date. -/
def renderYmd (y m d : ℕ) : String :=
  pad4 y ++ "-" ++ pad2 m ++ "-" ++ pad2 d

/-- Embedding of `format_date(date_str)` (`fetch_codetop_data.py` lines
62-71): replace every `Z` by `+00:00`, parse with `fromisoformat`, and render
`%Y-%m-%d`; the bare `except:` turns every parse failure into the fixed
fallback `'2025-08-01'`. -/
def format_date (date_str : String) : String :=
  match fromisoformat (pyReplaceChar date_str 'Z' "+00:00") with
  | some (y, m, d) => renderYmd y m d
  | none => "2025-08-01"

/-- C10: `format_date` is a total function (the bare `except:` catches every
exception) that returns either the date portion of the parsed ISO-8601
timestamp rendered as `YYYY-MM-DD`, or the fixed fallback `'2025-08-01'`
when the (Z-normalized) string does not parse. -/
theorem format_date_spec (s : String) :
    (∃ y m d, fromisoformat (pyReplaceChar s 'Z' "+00:00") = some (y, m, d) ∧
      format_date s = renderYmd y m d) ∨
    (fromisoformat (pyReplaceChar s 'Z' "+00:00") = none ∧
      format_date s = "2025-08-01") := by
  rcases h : fromisoformat (pyReplaceChar s 'Z' "+00:00") with _ | ⟨y, m, d⟩
  · right
    exact ⟨rfl, by simp [format_date, h]⟩
  · left
    exact ⟨y, m, d, rfl, by simp [format_date, h]⟩

/-- Sanity check of the embedding on a timestamp taken from the fixture data
of `generate_comprehensive_problems_sql.py`. -/
theorem format_date_parse_example :
    format_date "2025-08-26T12:12:31.749000Z" = "2025-08-26" := by decide

/-- Sanity check of the fallback branch on an unparsable string. -/
theorem format_date_fallback_example : format_date "not a date" = "2025-08-01" := by
  decide
